import Mathlib

/-!
Verification of the matching and annotation engine of RGH_accounting
(src/exel_diff/cli.py, command table_import), as a shallow embedding.

Modelling conventions:
* A spreadsheet cell value is either blank (Python None from openpyxl),
  an integer number, or a text string.  Cells holding integral numbers are
  modelled with Int; float cells are outside the scenarios considered here.
* A sheet is a dense rectangular-ish grid: a list of rows, each a list of
  cell values; missing positions read as blank, matching openpyxl reads of
  untouched cells.  Rows and columns are 1-based, as in openpyxl.
* Python operations that raise exceptions are modelled with Except String:
  an error value carries the kind of the exception raised at that point.
  In particular, at line 246 of cli.py the expression
  str(abs(cell.value)) + partition_value evaluates abs first, so a
  non-numeric target value raises before a non-string partition value does;
  the model evaluates in the same order.
* The openpyxl Worksheet class exposes max_row and max_column, but no
  attribute named max_col; line 260 of cli.py reads sheet.max_col, so that
  branch raises AttributeError whenever it is reached.  The model returns
  the corresponding error there.
-/

/-- Value held by one spreadsheet cell: blank (None), a number, or text. -/
inductive CellValue where
  | blank : CellValue
  | num : Int → CellValue
  | str : String → CellValue
  deriving DecidableEq, Repr

/-- A sheet: list of rows, each row a list of cell values (1-based reads). -/
structure Sheet where
  rows : List (List CellValue)
  deriving DecidableEq, Repr

/-- Number of rows of the sheet, the model of openpyxl max_row for the
nonempty sheets used here. -/
def Sheet.maxRow (s : Sheet) : Nat := s.rows.length

/-- Read the cell at 1-based (row, column); absent positions are blank. -/
def cellValue (s : Sheet) (r c : Nat) : CellValue :=
  (s.rows.getD (r - 1) []).getD (c - 1) CellValue.blank

/-- Row stop strategies of cli.py lines 23-29 (spec names: on_blank,
end_of_sheet, at_row_index). -/
inductive RowStopStrategy where
  | on_nan : RowStopStrategy
  | end_of_tab : RowStopStrategy
  | index_row : RowStopStrategy
  deriving DecidableEq, Repr

/-- Result placement strategies of cli.py lines 32-38. -/
inductive ColumnResultStrategy where
  | insert_column_right : ColumnResultStrategy
  | add_column_end : ColumnResultStrategy
  | index_column : ColumnResultStrategy
  deriving DecidableEq, Repr

/-- A scanned entry: 1-based row together with the signed cell value
(cli.py keeps the openpyxl cell object; only row and value are used). -/
structure Entry where
  row : Nat
  value : Int
  deriving DecidableEq, Repr

/-- The hash_map of cli.py line 230: insertion-ordered map from the bucket
key to the pair (list of non-negative entries, list of negative entries),
modelled as an association list in insertion order, since Python dict
iteration follows insertion order. -/
abbrev BucketMap := List (String × List Entry × List Entry)

/-- One update of hash_map (cli.py lines 247-252): create the key slot at
the end on first sight, then append the entry to the "+" list when the
value is non-negative and to the "-" list when it is negative. -/
def hmAppend : BucketMap → String → Entry → Bool → BucketMap
  | [], k, e, neg => [(k, if neg then ([], [e]) else ([e], []))]
  | (k2, pos, negl) :: rest, k, e, neg =>
      if k = k2 then
        (k2, if neg then (pos, negl ++ [e]) else (pos ++ [e], negl)) :: rest
      else
        (k2, pos, negl) :: hmAppend rest k e neg

/-- Body of the scan loop for one row (cli.py lines 242-252), entered for
every non-blank cell, and also for blank cells under strategy index_row
(the blank checks at lines 236-240 fall through in that case).
Line 244 reads the raw partition cell value with no conversion.
Line 246 computes str(abs(cell.value)) + partition_value: abs raises
TypeError on None or a string, and the concatenation raises TypeError when
the partition value is not a string (None or a number). -/
def scanEntry (sheet : Sheet) (col : Nat) (pcol : Option Nat) (r : Nat)
    (m : BucketMap) : Except String BucketMap :=
  let pv : CellValue :=
    match pcol with
    | none => CellValue.str ""
    | some pc => cellValue sheet r pc
  match cellValue sheet r col with
  | CellValue.num v =>
      match pv with
      | CellValue.str s =>
          Except.ok (hmAppend m (toString v.natAbs ++ s) ⟨r, v⟩ (decide (v < 0)))
      | _ => Except.error "TypeError: can only concatenate str"
  | CellValue.blank => Except.error "TypeError: bad operand type for abs"
  | CellValue.str _ => Except.error "TypeError: bad operand type for abs"

/-- The scan loop of cli.py lines 231-252 over a list of row numbers:
break when strategy index_row and the row exceeds the stop index
(line 234); on a blank cell (None or empty string, line 236) break under
on_nan, skip under end_of_tab, and fall through to the entry body under
index_row; otherwise process the entry and continue. -/
def scanRows (sheet : Sheet) (col : Nat) (strat : RowStopStrategy)
    (stopIdx : Nat) (pcol : Option Nat) :
    List Nat → BucketMap → Except String BucketMap
  | [], m => Except.ok m
  | r :: rest, m =>
      if strat = RowStopStrategy.index_row ∧ stopIdx < r then Except.ok m
      else if (cellValue sheet r col = CellValue.blank ∨
               cellValue sheet r col = CellValue.str "") ∧
              strat = RowStopStrategy.on_nan then Except.ok m
      else if (cellValue sheet r col = CellValue.blank ∨
               cellValue sheet r col = CellValue.str "") ∧
              strat = RowStopStrategy.end_of_tab then
        scanRows sheet col strat stopIdx pcol rest m
      else
        match scanEntry sheet col pcol r m with
        | Except.error e => Except.error e
        | Except.ok m2 => scanRows sheet col strat stopIdx pcol rest m2

/-- Build hash_map for one sheet: iterate rows row_start .. max_row in
increasing order (cli.py line 231, iter_rows).  The stop index is only
consulted under strategy index_row; the validation at lines 139-142
guarantees it was supplied in that case. -/
def buildHashMap (sheet : Sheet) (col : Nat) (strat : RowStopStrategy)
    (stopIdx : Nat) (pcol : Option Nat) (rowStart : Nat) :
    Except String BucketMap :=
  scanRows sheet col strat stopIdx pcol
    (List.range' rowStart (sheet.maxRow + 1 - rowStart)) []

/-- Writes produced for one bucket by the pairing loop of cli.py lines
267-286: for i in range(max(len plus, len minus)), when both lists have an
entry at i both rows receive the bucket match index (plus written first);
when only one list has an entry at i that row is written blank (None). -/
def bucketWrites (idx : Nat) (pos neg : List Entry) :
    List (Nat × Option Nat) :=
  (List.range (max pos.length neg.length)).flatMap fun i =>
    match pos[i]?, neg[i]? with
    | some p, some n => [(p.row, some idx), (n.row, some idx)]
    | some p, none => [(p.row, none)]
    | none, some n => [(n.row, none)]
    | none, none => []

/-- The full annotation pass of cli.py lines 265-286: enumerate the buckets
in insertion order, the enumeration position being the bucket match index,
and emit the pairing writes of every bucket. -/
def annotate (m : BucketMap) : List (Nat × Option Nat) :=
  m.enum.flatMap fun x => bucketWrites x.1 x.2.2.1 x.2.2.2

/-- Model of openpyxl insert_cols(idx): a new blank column appears at
1-based position idx, existing cells at or right of idx shift right.
Rows shorter than idx - 1 hold only blanks at and beyond idx, so they are
unchanged (List.insertIdx is the identity past the end of the list). -/
def insertCols (s : Sheet) (idx : Nat) : Sheet :=
  ⟨s.rows.map fun row => List.insertIdx (idx - 1) CellValue.blank row⟩

/-- Result placement (cli.py lines 254-263).  insert_column_right inserts
at the column right of the processed one and returns that index.
add_column_end reads sheet.max_col (line 260): openpyxl Worksheet has
max_column but no max_col, so this branch raises AttributeError.
index_column returns the configured index unchanged (possibly None) and
performs no insertion. -/
def resolvePlacement (sheet : Sheet) (colProcess : Nat)
    (strat : ColumnResultStrategy) (resultIdx : Option Nat) :
    Except String (Option Nat × Sheet) :=
  match strat with
  | ColumnResultStrategy.insert_column_right =>
      Except.ok (some (colProcess + 1), insertCols sheet (colProcess + 1))
  | ColumnResultStrategy.add_column_end =>
      Except.error "AttributeError: Worksheet object has no attribute max_col"
  | ColumnResultStrategy.index_column => Except.ok (resultIdx, sheet)

/-- Pad a row with blanks up to length n. -/
def padTo (l : List CellValue) (n : Nat) : List CellValue :=
  l ++ List.replicate (n - l.length) CellValue.blank

/-- Write one cell at 1-based (r, c), growing the grid as openpyxl does. -/
def setCell (s : Sheet) (r c : Nat) (v : CellValue) : Sheet :=
  let rs := s.rows ++ List.replicate (r - s.rows.length) []
  let row2 := (padTo (rs.getD (r - 1) []) c).set (c - 1) v
  ⟨rs.set (r - 1) row2⟩

/-- Apply the annotation writes (cli.py lines 272-286): each write stores
the match index as a number, or blank for an unmatched entry.  When the
result column is None (index_column strategy with no configured index),
the first call sheet.cell(row, column=None) raises TypeError inside
openpyxl when None is compared against 1; with no writes at all, nothing
is evaluated and the pass ends without error. -/
def applyWrites : Sheet → Option Nat → List (Nat × Option Nat) →
    Except String Sheet
  | s, _, [] => Except.ok s
  | _, none, _ :: _ =>
      Except.error "TypeError: NoneType is not a valid column index"
  | s, some c, (r, v) :: rest =>
      applyWrites
        (setCell s r c
          (match v with
           | some i => CellValue.num (Int.ofNat i)
           | none => CellValue.blank))
        (some c) rest

/-- One whole sheet pass (cli.py lines 228-286): build hash_map, resolve
the result column (inserting when required), then write the annotations. -/
def processSheet (sheet : Sheet) (col : Nat) (strat : RowStopStrategy)
    (stopIdx : Nat) (pcol : Option Nat) (rowStart : Nat)
    (rstrat : ColumnResultStrategy) (ridx : Option Nat) :
    Except String Sheet :=
  match buildHashMap sheet col strat stopIdx pcol rowStart with
  | Except.error e => Except.error e
  | Except.ok m =>
      match resolvePlacement sheet col rstrat ridx with
      | Except.error e => Except.error e
      | Except.ok (resCol, sheet2) => applyWrites sheet2 resCol (annotate m)

/-- Configuration options of the table_import command that take part in
the validation block of cli.py lines 139-150. -/
structure Options where
  tabs : List String
  tabIndex : List Nat
  columnIndex : Option Int
  rowStartIndex : Int
  rowStopStrategy : RowStopStrategy
  rowStopIndex : Option Int
  columnResultStrategy : ColumnResultStrategy
  columnResultIndex : Option Nat
  partitionColumnIndex : Option Nat
  verbose : Int
  deriving DecidableEq, Repr

/-- The option validation of cli.py lines 139-150, run before the input
file is opened, in source order.  Note that no check relates
columnResultStrategy and columnResultIndex. -/
def validateOptions (o : Options) : Except String Unit :=
  if o.rowStopStrategy = RowStopStrategy.index_row ∧ o.rowStopIndex = none then
    Except.error "row_stop_index must be specified with row_stop_strategy index_row"
  else if o.rowStopStrategy ≠ RowStopStrategy.index_row ∧ o.rowStopIndex ≠ none then
    Except.error "row_stop_index must not be specified with other than row_stop_strategy index_row"
  else if o.tabs.length = 0 ∧ o.tabIndex.length = 0 then
    Except.error "-t or -i must be specified"
  else if o.columnIndex.any (fun ci => decide (ci < 1)) then
    Except.error "column_index must be greater than 0"
  else if o.rowStartIndex < 1 then
    Except.error "row_start_index must be greater than 0"
  else if o.verbose < 0 ∨ o.verbose > 2 then
    Except.error "verbose must be between 0 and 2"
  else
    Except.ok ()

/-- Header row of a sheet, the model of sheet[1] at cli.py lines 197
and 220 (cell values of row 1; a blank header cell is Python None). -/
def colNames (sheet : Sheet) : List CellValue := sheet.rows.getD 0 []

/-- First header matching the column pattern (cli.py line 205).  The
regular expression matcher of the re module is abstracted as a boolean
function patMatch pattern text; re.match raises TypeError when applied to
a non-string header value (None or a number), as the generator evaluates
the predicate on every prefix element until a match. -/
def findPatternColumn (patMatch : String → String → Bool) (pattern : String) :
    List CellValue → Except String (Option CellValue)
  | [] => Except.ok none
  | CellValue.str s :: rest =>
      if patMatch pattern s then Except.ok (some (CellValue.str s))
      else findPatternColumn patMatch pattern rest
  | _ :: _ => Except.error "TypeError: expected string or bytes-like object"

/-- The per-sheet column check of cli.py lines 199-208: with an explicit
1-based index, fail when the index exceeds the header length, then fail
when the header cell at that index is blank (None); with a pattern, fail
when no header matches.  Validation (line 145) has already rejected an
explicit index below 1. -/
def checkColumn (patMatch : String → String → Bool) (sheet : Sheet)
    (columnIndex : Option Nat) (pattern : String) :
    Except String CellValue :=
  match columnIndex with
  | some ci =>
      if (colNames sheet).length < ci then
        Except.error "Column index not found in sheet"
      else
        match (colNames sheet).getD (ci - 1) CellValue.blank with
        | CellValue.blank => Except.error "Column name not found in sheet"
        | name => Except.ok name
  | none =>
      match findPatternColumn patMatch pattern (colNames sheet) with
      | Except.error e => Except.error e
      | Except.ok none => Except.error "Column name not found in sheet"
      | Except.ok (some name) => Except.ok name

/-- Model of the Python list.index method: 0-based position of the first
element equal to the argument, ValueError when absent. -/
def pyListIndex (names : List CellValue) (name : CellValue) :
    Except String Nat :=
  if name ∈ names then
    Except.ok (names.findIdx fun c => decide (c = name))
  else
    Except.error "ValueError: value not in list"

/-- The processed column resolution of cli.py lines 220-226: recompute the
column name (from the explicit index, or from the pattern), then take
col_names.index(column_name) + 1 — the 1-based position of the FIRST
header cell holding that name, which is not necessarily the explicit
index when header texts repeat. -/
def columnIndexProcess (patMatch : String → String → Bool) (sheet : Sheet)
    (columnIndex : Option Nat) (pattern : String) : Except String Nat :=
  let names := colNames sheet
  let nameRes : Except String CellValue :=
    match columnIndex with
    | some ci => Except.ok (names.getD (ci - 1) CellValue.blank)
    | none =>
        match findPatternColumn patMatch pattern names with
        | Except.error e => Except.error e
        | Except.ok none => Except.ok CellValue.blank
        | Except.ok (some n) => Except.ok n
  match nameRes with
  | Except.error e => Except.error e
  | Except.ok name =>
      match pyListIndex names name with
      | Except.error e => Except.error e
      | Except.ok i => Except.ok (i + 1)

/-- The requested tab set of cli.py lines 178-182: the named tabs plus the
names of the sheets whose 1-based position appears in tab_index, with
duplicates removed.  Python set iteration order is unspecified; only
membership in this collection is relied upon below. -/
def resolvedTabs (sheetnames tabs : List String) (tabIndex : List Nat) :
    List String :=
  (tabs ++ (sheetnames.enum.filterMap fun p =>
    if tabIndex.contains (p.1 + 1) then some p.2 else none)).dedup

/-- The tab selection of cli.py lines 183-192: a requested tab absent from
the workbook only produces a warning and is dropped; the run aborts with
an error only when no requested tab is present. -/
def selectSheets (sheetnames tabs : List String) (tabIndex : List Nat) :
    Except String (List String) :=
  let sel := (resolvedTabs sheetnames tabs tabIndex).filter
    fun t => sheetnames.contains t
  if sel.isEmpty then Except.error "No matching tab found" else Except.ok sel

/-- Scenario A sheet: header then target values 10, -10, 10, 5 in rows 2
to 5 of column 1. -/
def sheetA : Sheet :=
  ⟨[[CellValue.str "Amount"], [CellValue.num 10], [CellValue.num (-10)],
    [CellValue.num 10], [CellValue.num 5]]⟩

/-- Sheet with a blank target cell at row 3 inside the scanned range. -/
def sheetC3 : Sheet :=
  ⟨[[CellValue.str "Amount"], [CellValue.num 10], [], [CellValue.num 5],
    [CellValue.num 7]]⟩

/-- Partitioned sheet whose partition cells are all text. -/
def sheetPartStr : Sheet :=
  ⟨[[CellValue.str "Amount", CellValue.str "K"],
    [CellValue.num 10, CellValue.str "A"],
    [CellValue.num (-10), CellValue.str "A"]]⟩

/-- Partitioned sheet whose row 3 partition cell is blank. -/
def sheetPartBlank : Sheet :=
  ⟨[[CellValue.str "Amount", CellValue.str "K"],
    [CellValue.num 10, CellValue.str "A"],
    [CellValue.num (-10)]]⟩

/-- Partitioned sheet whose row 2 partition cell holds a number. -/
def sheetPartNum : Sheet :=
  ⟨[[CellValue.str "Amount", CellValue.str "K"],
    [CellValue.num 10, CellValue.num 7]]⟩

/-- Sheet whose first scanned cell (row 2) is blank: under on_nan the scan
yields zero entries. -/
def sheetBlankFirst : Sheet :=
  ⟨[[CellValue.str "Amount"], [], [CellValue.num 3]]⟩

/-- Sheet whose header row repeats the same text in columns 1 and 2. -/
def sheetDupHeader : Sheet :=
  ⟨[[CellValue.str "Amount", CellValue.str "Amount"],
    [CellValue.num 1, CellValue.num 2]]⟩

/-- A configuration that passes every check of cli.py lines 139-150. -/
def baseOptions : Options :=
  { tabs := ["Sheet1"], tabIndex := [], columnIndex := none,
    rowStartIndex := 2, rowStopStrategy := RowStopStrategy.on_nan,
    rowStopIndex := none,
    columnResultStrategy := ColumnResultStrategy.insert_column_right,
    columnResultIndex := none, partitionColumnIndex := none, verbose := 1 }

/-- Configuration using the index_column result strategy while supplying
no result column index. -/
def optionsNoResultIndex : Options :=
  { baseOptions with
    columnResultStrategy := ColumnResultStrategy.index_column,
    columnResultIndex := none }

lemma mapSuccFlatMap {β : Type} (l : List Nat) (f : Nat → List β) :
    (l.map Nat.succ).flatMap f = l.flatMap fun i => f (i + 1) := by
  induction l with
  | nil => rfl
  | cons a l ih => simp [ih]

lemma bucketWrites_nil_nil (idx : Nat) : bucketWrites idx [] [] = [] := rfl

lemma bucketWrites_nil_cons (idx : Nat) (n : Entry) (ns : List Entry) :
    bucketWrites idx [] (n :: ns) = (n.row, none) :: bucketWrites idx [] ns := by
  simp only [bucketWrites, List.length_nil, List.length_cons, Nat.zero_max,
    List.range_succ_eq_map, List.flatMap_cons, mapSuccFlatMap,
    List.getElem?_nil, List.getElem?_cons_zero, List.getElem?_cons_succ,
    List.singleton_append]

lemma bucketWrites_cons_nil (idx : Nat) (p : Entry) (ps : List Entry) :
    bucketWrites idx (p :: ps) [] = (p.row, none) :: bucketWrites idx ps [] := by
  simp only [bucketWrites, List.length_cons, List.length_nil, Nat.max_zero,
    List.range_succ_eq_map, List.flatMap_cons, mapSuccFlatMap,
    List.getElem?_nil, List.getElem?_cons_zero, List.getElem?_cons_succ,
    List.singleton_append]

lemma bucketWrites_cons_cons (idx : Nat) (p n : Entry) (ps ns : List Entry) :
    bucketWrites idx (p :: ps) (n :: ns)
      = (p.row, some idx) :: (n.row, some idx) :: bucketWrites idx ps ns := by
  simp only [bucketWrites, List.length_cons, Nat.add_max_add_right,
    List.range_succ_eq_map, List.flatMap_cons, mapSuccFlatMap,
    List.getElem?_cons_zero, List.getElem?_cons_succ, List.cons_append,
    List.nil_append]

lemma bucketWrites_countSome (idx : Nat) (pos neg : List Entry) :
    (bucketWrites idx pos neg).countP (fun w => decide (w.2 = some idx))
      = 2 * min pos.length neg.length := by
  induction pos generalizing neg with
  | nil =>
    induction neg with
    | nil => simp [bucketWrites_nil_nil]
    | cons n ns ih =>
      rw [bucketWrites_nil_cons]
      simp [List.countP_cons, ih]
  | cons p ps ihp =>
    cases neg with
    | nil =>
      rw [bucketWrites_cons_nil]
      have h := ihp []
      simp only [List.countP_cons, h]
      simp
    | cons n ns =>
      rw [bucketWrites_cons_cons]
      have h := ihp ns
      simp [List.countP_cons, h]
      omega

lemma bucketWrites_countNone (idx : Nat) (pos neg : List Entry) :
    (bucketWrites idx pos neg).countP (fun w => decide (w.2 = none))
      = Nat.dist pos.length neg.length := by
  induction pos generalizing neg with
  | nil =>
    induction neg with
    | nil => simp [bucketWrites_nil_nil, Nat.dist]
    | cons n ns ih =>
      rw [bucketWrites_nil_cons]
      simp only [List.countP_cons, ih, List.length_cons, List.length_nil]
      simp [Nat.dist]
  | cons p ps ihp =>
    cases neg with
    | nil =>
      rw [bucketWrites_cons_nil]
      have h := ihp []
      simp only [List.countP_cons, h, List.length_cons, List.length_nil]
      simp [Nat.dist]
    | cons n ns =>
      rw [bucketWrites_cons_cons]
      have h := ihp ns
      simp [List.countP_cons, h, Nat.dist]

lemma bucketWrites_length (idx : Nat) (pos neg : List Entry) :
    (bucketWrites idx pos neg).length = pos.length + neg.length := by
  induction pos generalizing neg with
  | nil =>
    induction neg with
    | nil => simp [bucketWrites_nil_nil]
    | cons n ns ih =>
      rw [bucketWrites_nil_cons]
      simp only [List.length_cons, ih, List.length_nil]
      omega
  | cons p ps ihp =>
    cases neg with
    | nil =>
      rw [bucketWrites_cons_nil]
      have h := ihp []
      simp [List.length_cons, h]
    | cons n ns =>
      rw [bucketWrites_cons_cons]
      have h := ihp ns
      simp only [List.length_cons, h]
      omega

/-- Claim C1: in every bucket handed to the pairing loop, the entries that
receive the bucket match index number 2 * min of the two list lengths
(that is, min matched pairs), the entries written blank number the
absolute difference of the two lengths, and the writes cover the bucket
exactly: one write per entry, so every entry is either paired or marked
unmatched and never both. -/
theorem bucket_pairing_counts (idx : Nat) (pos neg : List Entry) :
    (bucketWrites idx pos neg).countP (fun w => decide (w.2 = some idx))
        = 2 * min pos.length neg.length
    ∧ (bucketWrites idx pos neg).countP (fun w => decide (w.2 = none))
        = Nat.dist pos.length neg.length
    ∧ (bucketWrites idx pos neg).length = pos.length + neg.length :=
  ⟨bucketWrites_countSome idx pos neg, bucketWrites_countNone idx pos neg,
   bucketWrites_length idx pos neg⟩

/-- Claim C2: Scenario A.  Target values 10, -10, 10, 5 in rows 2 to 5,
start row 2, strategy on_nan, no partition: bucket "10" is created first
(insertion order) with non-negative rows 2 and 4 and negative row 3, so
rows 2 and 3 are written match index 0 while rows 4 and 5 are written
blank. -/
theorem scenario_a_matches :
    buildHashMap sheetA 1 RowStopStrategy.on_nan 0 none 2
        = Except.ok [("10", [⟨2, 10⟩, ⟨4, 10⟩], [⟨3, -10⟩]),
                     ("5", [⟨5, 5⟩], [])]
    ∧ (buildHashMap sheetA 1 RowStopStrategy.on_nan 0 none 2).map annotate
        = Except.ok [(2, some 0), (3, some 0), (4, none), (5, none)] :=
  ⟨rfl, rfl⟩

/-- Claim C3 evaluated on the code: under strategy index_row the scan does
emit every row from the start row through the stop row inclusive and none
beyond (first conjunct, stop row 3 on sheetA), but a blank target cell
inside the range is NOT handled: the blank checks fall through to
str(abs(cell.value)) with value None and the run crashes with TypeError
(second conjunct, sheetC3 has a blank at row 3 with stop row 4). -/
theorem index_row_blank_cell_crashes :
    buildHashMap sheetA 1 RowStopStrategy.index_row 3 none 2
        = Except.ok [("10", [⟨2, 10⟩], [⟨3, -10⟩])]
    ∧ buildHashMap sheetC3 1 RowStopStrategy.index_row 4 none 2
        = Except.error "TypeError: bad operand type for abs" :=
  ⟨rfl, rfl⟩

/-- Claim C4 evaluated on the code: a text partition cell is appended
verbatim to the bucket key (first conjunct, key "10A"), but the partition
value is never stringified: a blank partition cell (None) and a numeric
partition cell both make the concatenation at cli.py line 246 raise
TypeError instead of contributing "" or a digit string. -/
theorem partition_value_not_stringified :
    buildHashMap sheetPartStr 1 RowStopStrategy.on_nan 0 (some 2) 2
        = Except.ok [("10A", [⟨2, 10⟩], [⟨3, -10⟩])]
    ∧ buildHashMap sheetPartBlank 1 RowStopStrategy.on_nan 0 (some 2) 2
        = Except.error "TypeError: can only concatenate str"
    ∧ buildHashMap sheetPartNum 1 RowStopStrategy.on_nan 0 (some 2) 2
        = Except.error "TypeError: can only concatenate str" :=
  ⟨rfl, rfl, rfl⟩

/-- Claim C5 evaluated on the code: the add_column_end strategy never
succeeds, because cli.py line 260 reads sheet.max_col while the openpyxl
Worksheet class only provides max_column, so every sheet pass using this
strategy raises AttributeError before inserting anything. -/
theorem add_column_end_always_fails :
    processSheet sheetA 1 RowStopStrategy.on_nan 0 none 2
        ColumnResultStrategy.add_column_end none
      = Except.error
          "AttributeError: Worksheet object has no attribute max_col" :=
  rfl

/-- Claim C6 evaluated on the code: a configuration using the index_column
result strategy with no result column index passes the validation block
untouched (first conjunct); the sheet is then opened and fully scanned,
and the run only fails at the first annotation write, where
sheet.cell(row, column=None) raises TypeError (second conjunct); when the
scan yields no entries at all the run even completes without any error
(third conjunct).  No configuration error is raised before the sheets are
read. -/
theorem index_column_missing_index_no_config_error :
    validateOptions optionsNoResultIndex = Except.ok ()
    ∧ processSheet sheetA 1 RowStopStrategy.on_nan 0 none 2
        ColumnResultStrategy.index_column none
        = Except.error "TypeError: NoneType is not a valid column index"
    ∧ processSheet sheetBlankFirst 1 RowStopStrategy.on_nan 0 none 2
        ColumnResultStrategy.index_column none
        = Except.ok sheetBlankFirst :=
  ⟨rfl, rfl, rfl⟩

/-- Claim C7 evaluated on the code: with the duplicate header row
["Amount", "Amount"] and explicit column index 2, the per-sheet check
accepts the index and resolves the header text (first conjunct), but the
processing phase recomputes the column as
col_names.index(column_name) + 1, the position of the FIRST header with
that text, so the column actually scanned is column 1, not the requested
column 2 (second conjunct). -/
theorem explicit_index_duplicate_header :
    checkColumn (fun _ _ => false) sheetDupHeader (some 2) "^Amount.*"
        = Except.ok (CellValue.str "Amount")
    ∧ columnIndexProcess (fun _ _ => false) sheetDupHeader (some 2) "^Amount.*"
        = Except.ok 1 :=
  ⟨rfl, rfl⟩

/-- Claim C8 counterexample: tab "B" is requested and absent from the
workbook whose only sheet is "A", yet tab selection succeeds and the run
proceeds with the remaining sheet instead of failing. -/
theorem absent_tab_run_succeeds :
    ("B" ∈ (["A", "B"] : List String)) ∧ ("B" ∉ (["A"] : List String)) ∧
      selectSheets ["A"] ["A", "B"] [] = Except.ok ["A"] :=
  ⟨by decide, by decide, by rfl⟩

/-- Claim C8 (amended): a requested tab absent from the workbook is only
warned about and skipped; as long as at least one requested tab is present
the run proceeds, processing exactly the requested tabs that are present;
the run fails only when no requested tab exists in the workbook. -/
theorem selectSheets_skips_absent (sheetnames tabs : List String)
    (tabIndex : List Nat) (t : String) (ht : t ∈ tabs)
    (hs : t ∈ sheetnames) :
    ∃ l, selectSheets sheetnames tabs tabIndex = Except.ok l ∧
      ∀ u, u ∈ l ↔
        u ∈ resolvedTabs sheetnames tabs tabIndex ∧ u ∈ sheetnames := by
  have htr : t ∈ resolvedTabs sheetnames tabs tabIndex := by
    unfold resolvedTabs
    rw [List.mem_dedup]
    exact List.mem_append_left _ ht
  have hmem : ∀ u, u ∈ (resolvedTabs sheetnames tabs tabIndex).filter
      (fun x => sheetnames.contains x) ↔
      u ∈ resolvedTabs sheetnames tabs tabIndex ∧ u ∈ sheetnames := by
    intro u
    rw [List.mem_filter]
    simp [List.contains]
  have hne : ((resolvedTabs sheetnames tabs tabIndex).filter
      (fun x => sheetnames.contains x)) ≠ [] := by
    intro h
    have hin : t ∈ (resolvedTabs sheetnames tabs tabIndex).filter
        (fun x => sheetnames.contains x) := (hmem t).2 ⟨htr, hs⟩
    rw [h] at hin
    exact absurd hin (List.not_mem_nil t)
  refine ⟨_, ?_, hmem⟩
  unfold selectSheets
  rw [if_neg]
  simp only [List.isEmpty_iff]
  exact hne

/-- Witness for the amended C8 theorem at a concrete workbook: sheets
"A" and "C", requested tabs "A" and "B". -/
theorem selectSheets_skips_absent_witness :
    ∃ l, selectSheets ["A", "C"] ["A", "B"] [] = Except.ok l ∧
      ∀ u, u ∈ l ↔
        u ∈ resolvedTabs ["A", "C"] ["A", "B"] [] ∧ u ∈ ["A", "C"] :=
  selectSheets_skips_absent ["A", "C"] ["A", "B"] [] "A" (by decide)
    (by decide)

/-- Claim C9: with every other option valid, the validation block accepts
a configuration exactly when the stop row index is supplied if and only if
the stop strategy is index_row: a stop row with on_nan or end_of_tab is
rejected, index_row without a stop row is rejected, and the other
combinations pass.  This validation runs before any file is opened. -/
theorem stop_row_validation_iff (strat : RowStopStrategy)
    (stopIdx : Option Int) :
    validateOptions
        { baseOptions with rowStopStrategy := strat, rowStopIndex := stopIdx }
        = Except.ok ()
      ↔ (stopIdx.isSome ↔ strat = RowStopStrategy.index_row) := by
  cases strat <;> cases stopIdx <;>
    simp [validateOptions, baseOptions]

/-- Claim C10 evaluated on the code: on a sheet whose first scanned cell
is blank under on_nan (zero entries scanned), insert_column_right still
inserts a fresh column, structurally mutating the sheet although no
annotation is written (first two conjuncts); add_column_end however never
reaches its insertion, crashing on the missing max_col attribute (third
conjunct). -/
theorem empty_scan_inserts_column :
    processSheet sheetBlankFirst 1 RowStopStrategy.on_nan 0 none 2
        ColumnResultStrategy.insert_column_right none
        = Except.ok ⟨[[CellValue.str "Amount", CellValue.blank], [],
            [CellValue.num 3, CellValue.blank]]⟩
    ∧ (⟨[[CellValue.str "Amount", CellValue.blank], [],
          [CellValue.num 3, CellValue.blank]]⟩ : Sheet) ≠ sheetBlankFirst
    ∧ processSheet sheetBlankFirst 1 RowStopStrategy.on_nan 0 none 2
        ColumnResultStrategy.add_column_end none
        = Except.error
            "AttributeError: Worksheet object has no attribute max_col" :=
  ⟨rfl, by decide, rfl⟩
